import Mathlib

/-!
Verification of the Aletheia idea-scoring and chat-session engine.

The definitions below are a shallow embedding of
`src/agent_aletheia/services/scoring.py` and
`src/agent_aletheia/services/chat.py` together with the configuration
model of `src/agent_aletheia/config/__init__.py`.  Python floats are
modelled as rationals, Python strings as Lean `String` (lower-casing maps
`Char.toLower` over the characters, substring search is the usual
list-infix test that Python's `in` performs), dictionaries keyed by UUID
as association lists keyed by `Nat`.
-/

/-- Python's `needle in hay` substring test on character lists:
some tail of `hay` starts with `needle`. -/
def charListContains (hay needle : List Char) : Bool :=
  match hay with
  | [] => needle.isEmpty
  | _ :: t => needle.isPrefixOf hay || charListContains t needle

/-- Substring test on strings, as Python's `needle in hay`. -/
def strContains (hay needle : String) : Bool :=
  charListContains hay.toList needle.toList

/-- Python `str.lower()` (character-wise lower-casing). -/
def lowerString (s : String) : String :=
  String.mk (s.toList.map Char.toLower)

/-- `TopicConfig` from `config/__init__.py`. -/
structure TopicConfig where
  name : String
  keywords : List String
  weight : ℚ
  subtopics : List String := []
deriving DecidableEq, Repr

/-- `ScoringConfig` from `config/__init__.py`, with its defaults. -/
structure ScoringConfig where
  novelty_weight : ℚ := 4/10
  topicality_weight : ℚ := 3/10
  relevance_weight : ℚ := 3/10
  minimum_score : ℚ := 65/100
deriving DecidableEq, Repr

/-- `AletheiaConfig` from `config/__init__.py` (the filter block is not
consumed by the scoring or chat services and is omitted). -/
structure AletheiaConfig where
  primary_topics : List TopicConfig
  secondary_topics : List TopicConfig
  exclude_topics : List String
  scoring : ScoringConfig
deriving DecidableEq, Repr

/-- The part of `IdeaModel` that scoring reads: title and content. -/
structure IdeaModel where
  title : String
  content : String
deriving DecidableEq, Repr

/-- `IdeaScore` from `agent_sdk.models.idea` as populated by
`IdeaScoringService.score_idea` (the idea id is dropped). -/
structure IdeaScore where
  relevance_score : ℚ
  novelty_score : ℚ
  topicality_score : ℚ
  composite_score : ℚ
deriving DecidableEq, Repr

/-- `content_lower` of `_calculate_relevance`:
`f"{idea.title} {idea.content}".lower()`. -/
def haystack (idea : IdeaModel) : String :=
  lowerString (idea.title ++ " " ++ idea.content)

/-- `matches` of `_calculate_relevance`: how many of the topic's keywords
occur (lower-cased) in the haystack, each keyword counted once. -/
def topicMatches (t : TopicConfig) (hay : String) : Nat :=
  (t.keywords.filter (fun kw => strContains hay (lowerString kw))).length

/-- `topic_score` of `_calculate_relevance`:
`min(matches / len(topic.keywords), 1.0) * topic.weight`. -/
def topicScore (t : TopicConfig) (hay : String) : ℚ :=
  min ((topicMatches t hay : ℚ) / (t.keywords.length : ℚ)) 1 * t.weight

/-- The primary/secondary loop of `_calculate_relevance`: starting from
`0.0`, a topic updates the running maximum only when it has at least one
keyword match. -/
def bestTopicScore (topics : List TopicConfig) (hay : String) : ℚ :=
  topics.foldl
    (fun acc t => if topicMatches t hay > 0 then max acc (topicScore t hay) else acc) 0

/-- The excluded-topics loop of `_calculate_relevance`: is some excluded
keyword a (lower-cased) substring of the haystack? -/
def hasExcludedTopic (cfg : AletheiaConfig) (hay : String) : Bool :=
  cfg.exclude_topics.any (fun e => strContains hay (lowerString e))

/-- `IdeaScoringService._calculate_relevance`. -/
def calculate_relevance (cfg : AletheiaConfig) (idea : IdeaModel) : ℚ :=
  let hay := haystack idea
  if hasExcludedTopic cfg hay then 0
  else
    min (bestTopicScore cfg.primary_topics hay * (7/10)
          + bestTopicScore cfg.secondary_topics hay * (3/10)) 1

/-- `IdeaScoringService._calculate_novelty` (placeholder constant). -/
def calculate_novelty : ℚ := 8/10

/-- `IdeaScoringService._calculate_topicality` (placeholder constant). -/
def calculate_topicality : ℚ := 7/10

/-- `IdeaScoringService.score_idea`. -/
def score_idea (cfg : AletheiaConfig) (idea : IdeaModel) : IdeaScore :=
  let relevance := calculate_relevance cfg idea
  let novelty := calculate_novelty
  let topicality := calculate_topicality
  let composite :=
    relevance * cfg.scoring.relevance_weight
      + novelty * cfg.scoring.novelty_weight
      + topicality * cfg.scoring.topicality_weight
  { relevance_score := relevance
    novelty_score := novelty
    topicality_score := topicality
    composite_score := composite }

/-- `IdeaScoringService.passes_minimum_threshold`:
`score.composite_score >= self.scoring_config.minimum_score`. -/
def passes_minimum_threshold (cfg : AletheiaConfig) (score : IdeaScore) : Bool :=
  decide (cfg.scoring.minimum_score ≤ score.composite_score)

/-- The claim's view of one relevance component: the maximum over the
topics of `min(hits/len(keywords), 1) * weight`, taken to be `0` when
the list is empty or when no topic has any hit (for non-negative weights
this is exactly the fold below). -/
def specTopicComponent (topics : List TopicConfig) (hay : String) : ℚ :=
  topics.foldl (fun acc t => max acc (topicScore t hay)) 0

lemma topicScore_eq_zero {t : TopicConfig} {hay : String}
    (h : topicMatches t hay = 0) : topicScore t hay = 0 := by
  have hq : ((topicMatches t hay : ℚ) / (t.keywords.length : ℚ)) = 0 := by
    rw [h]; simp
  rw [topicScore, hq, min_eq_left zero_le_one, zero_mul]

lemma bestTopicScore_eq_spec (topics : List TopicConfig) (hay : String) :
    bestTopicScore topics hay = specTopicComponent topics hay := by
  have key : ∀ (l : List TopicConfig) (acc : ℚ), 0 ≤ acc →
      l.foldl (fun acc t => if topicMatches t hay > 0 then max acc (topicScore t hay) else acc) acc
        = l.foldl (fun acc t => max acc (topicScore t hay)) acc := by
    intro l
    induction l with
    | nil => intro acc _; rfl
    | cons t rest ih =>
      intro acc hacc
      simp only [List.foldl_cons]
      by_cases hm : topicMatches t hay > 0
      · rw [if_pos hm]
        exact ih _ (le_trans hacc (le_max_left _ _))
      · rw [if_neg hm, topicScore_eq_zero (by omega : topicMatches t hay = 0),
          max_eq_left hacc]
        exact ih acc hacc
  exact key topics 0 le_rfl

lemma bestTopicScore_nonneg (topics : List TopicConfig) (hay : String) :
    0 ≤ bestTopicScore topics hay := by
  have key : ∀ (l : List TopicConfig) (acc : ℚ), 0 ≤ acc →
      0 ≤ l.foldl (fun acc t => if topicMatches t hay > 0 then max acc (topicScore t hay) else acc) acc := by
    intro l
    induction l with
    | nil => intro acc h; exact h
    | cons t rest ih =>
      intro acc hacc
      simp only [List.foldl_cons]
      by_cases hm : topicMatches t hay > 0
      · rw [if_pos hm]; exact ih _ (le_trans hacc (le_max_left _ _))
      · rw [if_neg hm]; exact ih acc hacc
  exact key topics 0 le_rfl

lemma calculate_relevance_nonneg (cfg : AletheiaConfig) (idea : IdeaModel) :
    0 ≤ calculate_relevance cfg idea := by
  rw [calculate_relevance]
  split
  · exact le_rfl
  · exact le_min
      (add_nonneg (mul_nonneg (bestTopicScore_nonneg _ _) (by norm_num))
        (mul_nonneg (bestTopicScore_nonneg _ _) (by norm_num)))
      zero_le_one

lemma calculate_relevance_le_one (cfg : AletheiaConfig) (idea : IdeaModel) :
    calculate_relevance cfg idea ≤ 1 := by
  rw [calculate_relevance]
  split
  · exact zero_le_one
  · exact min_le_right _ _

/-- C1: on an idea whose haystack has no excluded-topic keyword, the
relevance score is `min(1, 0.7 * P + 0.3 * S)` with `P` (resp. `S`) the
maximum over the primary (resp. secondary) topics of
`min(hits/len(keywords), 1) * weight`, zero when no topic has a hit.
The weight hypotheses are the data model's invariant (topic weights are
non-negative), under which `specTopicComponent` is exactly that maximum. -/
theorem relevance_formula_no_excluded (cfg : AletheiaConfig) (idea : IdeaModel)
    (_hp : ∀ t ∈ cfg.primary_topics, 0 ≤ t.weight)
    (_hs : ∀ t ∈ cfg.secondary_topics, 0 ≤ t.weight)
    (hex : hasExcludedTopic cfg (haystack idea) = false) :
    (score_idea cfg idea).relevance_score
      = min 1 (7/10 * specTopicComponent cfg.primary_topics (haystack idea)
                + 3/10 * specTopicComponent cfg.secondary_topics (haystack idea)) := by
  have h1 := bestTopicScore_eq_spec cfg.primary_topics (haystack idea)
  have h2 := bestTopicScore_eq_spec cfg.secondary_topics (haystack idea)
  simp only [score_idea, calculate_relevance, hex, Bool.false_eq_true, if_false]
  rw [h1, h2, min_comm]
  congr 1
  ring

/-- Sample topic configuration used by concrete witnesses: the spec's
concrete scenario (topic "finance", keywords liquidity/treasury,
weight 0.9, default scoring weights). -/
def financeTopic : TopicConfig :=
  { name := "finance", keywords := ["liquidity", "treasury"], weight := 9/10 }

/-- Sample configuration built around `financeTopic`. -/
def financeCfg : AletheiaConfig :=
  { primary_topics := [financeTopic], secondary_topics := [],
    exclude_topics := [], scoring := {} }

/-- Sample idea from the spec's concrete scenario. -/
def treasuryIdea : IdeaModel :=
  { title := "Treasury", content := "liquidity management" }

/-- C1 witness: the spec's concrete scenario evaluated at
`financeCfg`/`treasuryIdea`. -/
theorem relevance_formula_no_excluded_witness :
    (∀ t ∈ financeCfg.primary_topics, 0 ≤ t.weight)
    ∧ (∀ t ∈ financeCfg.secondary_topics, 0 ≤ t.weight)
    ∧ hasExcludedTopic financeCfg (haystack treasuryIdea) = false
    ∧ (score_idea financeCfg treasuryIdea).relevance_score
        = min 1 (7/10 * specTopicComponent financeCfg.primary_topics (haystack treasuryIdea)
                  + 3/10 * specTopicComponent financeCfg.secondary_topics (haystack treasuryIdea)) := by
  have hp : ∀ t ∈ financeCfg.primary_topics, 0 ≤ t.weight := by
    intro t ht
    simp only [financeCfg, financeTopic, List.mem_singleton] at ht
    subst ht
    norm_num
  have hs : ∀ t ∈ financeCfg.secondary_topics, 0 ≤ t.weight := by
    intro t ht
    simp [financeCfg] at ht
  have hex : hasExcludedTopic financeCfg (haystack treasuryIdea) = false := rfl
  exact ⟨hp, hs, hex, relevance_formula_no_excluded financeCfg treasuryIdea hp hs hex⟩

/-- C2: any excluded-topic keyword occurring (case-insensitively) in the
haystack forces relevance `0`, whatever the primary/secondary topics
match: the excluded check returns before they are consulted. -/
theorem relevance_zero_on_excluded (cfg : AletheiaConfig) (idea : IdeaModel)
    (hex : ∃ e ∈ cfg.exclude_topics, strContains (haystack idea) (lowerString e) = true) :
    (score_idea cfg idea).relevance_score = 0 := by
  have h : hasExcludedTopic cfg (haystack idea) = true := by
    rw [hasExcludedTopic, List.any_eq_true]
    obtain ⟨e, he, hc⟩ := hex
    exact ⟨e, he, hc⟩
  simp [score_idea, calculate_relevance, h]

/-- Sample configuration whose excluded topic "crypto" is hit by an idea
that also matches both primary keywords. -/
def excludedCfg : AletheiaConfig :=
  { primary_topics := [financeTopic], secondary_topics := [],
    exclude_topics := ["crypto"], scoring := {} }

/-- Idea hitting both the excluded keyword and both primary keywords. -/
def cryptoIdea : IdeaModel :=
  { title := "Crypto treasury", content := "liquidity for crypto desks" }

/-- C2 witness: an idea matching every primary keyword still scores
relevance `0` because an excluded keyword occurs. -/
theorem relevance_zero_on_excluded_witness :
    (∃ e ∈ excludedCfg.exclude_topics,
        strContains (haystack cryptoIdea) (lowerString e) = true)
    ∧ (score_idea excludedCfg cryptoIdea).relevance_score = 0 := by
  have hex : ∃ e ∈ excludedCfg.exclude_topics,
      strContains (haystack cryptoIdea) (lowerString e) = true := by
    refine ⟨"crypto", ?_, ?_⟩ <;> decide
  exact ⟨hex, relevance_zero_on_excluded excludedCfg cryptoIdea hex⟩

/-- C5 counterexample: with the (admissible, the data model constrains
only the threshold to `[0,1]`) scoring weights `novelty 0, topicality 0,
relevance -1` and threshold `0`, raising the relevance component from
`0` to `1` turns a passing score into a failing one, so the claim's
"for any fixed scoring weights" quantification fails: both composites
are computed by the `score_idea` formula and all components only grew. -/
theorem passes_threshold_monotone_cex :
    (0:ℚ) = 0 * (-1) + 0 * 0 + 0 * 0
    ∧ (-1:ℚ) = 1 * (-1) + 0 * 0 + 0 * 0
    ∧ ((0:ℚ) ≤ 1 ∧ (0:ℚ) ≤ 0 ∧ (0:ℚ) ≤ 0)
    ∧ passes_minimum_threshold ⟨[], [], [], ⟨0, 0, -1, 0⟩⟩ ⟨0, 0, 0, 0⟩ = true
    ∧ passes_minimum_threshold ⟨[], [], [], ⟨0, 0, -1, 0⟩⟩ ⟨1, 0, 0, -1⟩ = false := by
  refine ⟨by norm_num, by norm_num, ⟨by norm_num, le_rfl, le_rfl⟩, ?_, ?_⟩ <;> rfl

/-- C5 (amended: non-negative scoring weights): whenever the two
composites are computed from the components by the `score_idea` formula
and every component of the second score dominates the first's, a passing
first score forces a passing second score. -/
theorem passes_threshold_monotone (cfg : AletheiaConfig) (s1 s2 : IdeaScore)
    (hrw : 0 ≤ cfg.scoring.relevance_weight)
    (hnw : 0 ≤ cfg.scoring.novelty_weight)
    (htw : 0 ≤ cfg.scoring.topicality_weight)
    (hc1 : s1.composite_score
        = s1.relevance_score * cfg.scoring.relevance_weight
          + s1.novelty_score * cfg.scoring.novelty_weight
          + s1.topicality_score * cfg.scoring.topicality_weight)
    (hc2 : s2.composite_score
        = s2.relevance_score * cfg.scoring.relevance_weight
          + s2.novelty_score * cfg.scoring.novelty_weight
          + s2.topicality_score * cfg.scoring.topicality_weight)
    (hr : s1.relevance_score ≤ s2.relevance_score)
    (hn : s1.novelty_score ≤ s2.novelty_score)
    (ht : s1.topicality_score ≤ s2.topicality_score)
    (hp : passes_minimum_threshold cfg s1 = true) :
    passes_minimum_threshold cfg s2 = true := by
  rw [passes_minimum_threshold, decide_eq_true_eq] at hp ⊢
  have h1 := mul_le_mul_of_nonneg_right hr hrw
  have h2 := mul_le_mul_of_nonneg_right hn hnw
  have h3 := mul_le_mul_of_nonneg_right ht htw
  linarith

/-- C5 witness: the monotonicity theorem applied at the default scoring
weights to two concrete componentwise-ordered scores. -/
theorem passes_threshold_monotone_witness :
    ((0:ℚ) ≤ (3:ℚ)/10 ∧ (0:ℚ) ≤ (4:ℚ)/10 ∧ (0:ℚ) ≤ (3:ℚ)/10)
    ∧ ((7:ℚ)/10 = 1/2 * (3/10) + 1 * (4/10) + 1/2 * (3/10))
    ∧ ((17:ℚ)/20 = 3/4 * (3/10) + 1 * (4/10) + 3/4 * (3/10))
    ∧ passes_minimum_threshold ⟨[], [], [], {}⟩ ⟨1/2, 1, 1/2, 7/10⟩ = true
    ∧ passes_minimum_threshold ⟨[], [], [], {}⟩ ⟨3/4, 1, 3/4, 17/20⟩ = true := by
  have hrw : (0:ℚ) ≤ (3:ℚ)/10 := by norm_num
  have hnw : (0:ℚ) ≤ (4:ℚ)/10 := by norm_num
  have hc1 : ((7:ℚ)/10 = 1/2 * (3/10) + 1 * (4/10) + 1/2 * (3/10)) := by norm_num
  have hc2 : ((17:ℚ)/20 = 3/4 * (3/10) + 1 * (4/10) + 3/4 * (3/10)) := by norm_num
  have hp : passes_minimum_threshold ⟨[], [], [], {}⟩ ⟨1/2, 1, 1/2, 7/10⟩ = true := by
    rw [passes_minimum_threshold, decide_eq_true_eq]
    norm_num [ScoringConfig.minimum_score]
  refine ⟨⟨hrw, hnw, hrw⟩, hc1, hc2, hp, ?_⟩
  exact passes_threshold_monotone ⟨[], [], [], {}⟩ ⟨1/2, 1, 1/2, 7/10⟩ ⟨3/4, 1, 3/4, 17/20⟩
    hrw hnw hrw hc1 hc2 (by norm_num) le_rfl (by norm_num) hp

/-- C6: with topic weights in `[0,1]` and non-negative scoring weights,
every topic's contribution is bounded by its configured weight, and the
composite score lies in `[0, novelty_w + topicality_w + relevance_w]`
(no clamping of the composite to `1` happens). -/
theorem composite_score_bounds (cfg : AletheiaConfig) (idea : IdeaModel)
    (hw : ∀ t ∈ cfg.primary_topics ++ cfg.secondary_topics, 0 ≤ t.weight ∧ t.weight ≤ 1)
    (hrw : 0 ≤ cfg.scoring.relevance_weight)
    (hnw : 0 ≤ cfg.scoring.novelty_weight)
    (htw : 0 ≤ cfg.scoring.topicality_weight) :
    (∀ t ∈ cfg.primary_topics ++ cfg.secondary_topics,
        topicScore t (haystack idea) ≤ t.weight)
    ∧ 0 ≤ (score_idea cfg idea).composite_score
    ∧ (score_idea cfg idea).composite_score
        ≤ cfg.scoring.novelty_weight + cfg.scoring.topicality_weight
            + cfg.scoring.relevance_weight := by
  refine ⟨?_, ?_, ?_⟩
  · intro t ht
    obtain ⟨h0, _⟩ := hw t ht
    calc topicScore t (haystack idea)
        ≤ 1 * t.weight :=
          mul_le_mul_of_nonneg_right (min_le_right _ _) h0
      _ = t.weight := one_mul _
  · have hr0 := calculate_relevance_nonneg cfg idea
    simp only [score_idea, calculate_novelty, calculate_topicality]
    have h1 : 0 ≤ calculate_relevance cfg idea * cfg.scoring.relevance_weight :=
      mul_nonneg hr0 hrw
    have h2 : 0 ≤ (8:ℚ)/10 * cfg.scoring.novelty_weight :=
      mul_nonneg (by norm_num) hnw
    have h3 : 0 ≤ (7:ℚ)/10 * cfg.scoring.topicality_weight :=
      mul_nonneg (by norm_num) htw
    linarith
  · have hr1 := calculate_relevance_le_one cfg idea
    simp only [score_idea, calculate_novelty, calculate_topicality]
    have h1 : calculate_relevance cfg idea * cfg.scoring.relevance_weight
        ≤ cfg.scoring.relevance_weight := mul_le_of_le_one_left hrw hr1
    have h2 : (8:ℚ)/10 * cfg.scoring.novelty_weight ≤ cfg.scoring.novelty_weight :=
      mul_le_of_le_one_left hnw (by norm_num)
    have h3 : (7:ℚ)/10 * cfg.scoring.topicality_weight ≤ cfg.scoring.topicality_weight :=
      mul_le_of_le_one_left htw (by norm_num)
    linarith

/-- C6 witness: the bound theorem applied to the sample finance
configuration and idea. -/
theorem composite_score_bounds_witness :
    (∀ t ∈ financeCfg.primary_topics ++ financeCfg.secondary_topics,
        0 ≤ t.weight ∧ t.weight ≤ 1)
    ∧ ((0:ℚ) ≤ financeCfg.scoring.relevance_weight
        ∧ (0:ℚ) ≤ financeCfg.scoring.novelty_weight
        ∧ (0:ℚ) ≤ financeCfg.scoring.topicality_weight)
    ∧ (0 ≤ (score_idea financeCfg treasuryIdea).composite_score
        ∧ (score_idea financeCfg treasuryIdea).composite_score
            ≤ financeCfg.scoring.novelty_weight + financeCfg.scoring.topicality_weight
                + financeCfg.scoring.relevance_weight) := by
  have hw : ∀ t ∈ financeCfg.primary_topics ++ financeCfg.secondary_topics,
      0 ≤ t.weight ∧ t.weight ≤ 1 := by
    intro t ht
    simp only [financeCfg, financeTopic, List.append_nil, List.mem_singleton] at ht
    subst ht
    constructor <;> norm_num
  have hrw : (0:ℚ) ≤ financeCfg.scoring.relevance_weight := by
    simp only [financeCfg]; norm_num [ScoringConfig.relevance_weight]
  have hnw : (0:ℚ) ≤ financeCfg.scoring.novelty_weight := by
    simp only [financeCfg]; norm_num [ScoringConfig.novelty_weight]
  have htw : (0:ℚ) ≤ financeCfg.scoring.topicality_weight := by
    simp only [financeCfg]; norm_num [ScoringConfig.topicality_weight]
  obtain ⟨-, h2, h3⟩ := composite_score_bounds financeCfg treasuryIdea hw hrw hnw htw
  exact ⟨hw, ⟨hrw, hnw, htw⟩, h2, h3⟩

/-- C8: a topic whose keyword list is empty has zero matches, so the
guarded `matches > 0` branch (the only place that divides by
`len(keywords)`) is never taken for it: its contribution is `0`, and
deleting it from the primary or the secondary topic list leaves the
component scores and the relevance unchanged, for every idea. -/
theorem empty_keywords_zero_contribution (cfg : AletheiaConfig) (idea : IdeaModel)
    (t : TopicConfig) (pre post : List TopicConfig) (hk : t.keywords = []) :
    topicScore t (haystack idea) = 0
    ∧ bestTopicScore (pre ++ t :: post) (haystack idea)
        = bestTopicScore (pre ++ post) (haystack idea)
    ∧ calculate_relevance { cfg with primary_topics := pre ++ t :: post } idea
        = calculate_relevance { cfg with primary_topics := pre ++ post } idea
    ∧ calculate_relevance { cfg with secondary_topics := pre ++ t :: post } idea
        = calculate_relevance { cfg with secondary_topics := pre ++ post } idea := by
  have hm : ∀ hay, topicMatches t hay = 0 := by
    intro hay
    simp [topicMatches, hk]
  have hb : ∀ hay, bestTopicScore (pre ++ t :: post) hay = bestTopicScore (pre ++ post) hay := by
    intro hay
    simp only [bestTopicScore, List.foldl_append, List.foldl_cons]
    rw [hm hay]
    simp
  refine ⟨topicScore_eq_zero (hm _), hb _, ?_, ?_⟩
  · simp only [calculate_relevance, hasExcludedTopic]
    rw [hb]
  · simp only [calculate_relevance, hasExcludedTopic]
    rw [hb]

/-- C8 witness: adding an empty-keyword topic to the sample finance
configuration changes nothing. -/
theorem empty_keywords_zero_contribution_witness :
    (({ name := "empty", keywords := [], weight := 1 } : TopicConfig).keywords = [])
    ∧ topicScore { name := "empty", keywords := [], weight := 1 } (haystack treasuryIdea) = 0
    ∧ calculate_relevance
        { financeCfg with primary_topics := [] ++ { name := "empty", keywords := [], weight := 1 } :: [financeTopic] }
        treasuryIdea
      = calculate_relevance { financeCfg with primary_topics := [] ++ [financeTopic] } treasuryIdea := by
  have hk : ({ name := "empty", keywords := [], weight := 1 } : TopicConfig).keywords = [] := rfl
  obtain ⟨h1, -, h3, -⟩ := empty_keywords_zero_contribution financeCfg treasuryIdea
    { name := "empty", keywords := [], weight := 1 } [] [financeTopic] hk
  exact ⟨hk, h1, h3⟩

/-- `MessageRole` from `agent_sdk.models.chat` (the two roles used). -/
inductive MessageRole where
  | user
  | assistant
deriving DecidableEq, Repr

/-- `FeedbackType` from `agent_sdk.models.chat` (accept / reject / flag). -/
inductive FeedbackType where
  | accept
  | reject
  | flag
deriving DecidableEq, Repr

/-- `ChatMessage` as populated by `ChatService.send_message` (message and
timestamp identifiers are dropped; UUIDs are modelled as `Nat`). -/
structure ChatMessage where
  session_id : Nat
  role : MessageRole
  content : String
  idea_refs : List Nat := []
  context_confidence : ℚ
deriving DecidableEq, Repr

/-- `ChatSession` from `agent_sdk.models.chat`: the fields the chat
service reads or writes.  Timestamps are abstract `Nat` instants. -/
structure ChatSession where
  id : Nat
  user_id : Option String := none
  is_active : Bool := true
  message_count : Nat := 0
  topics : List String := []
  ideas_generated : Nat := 0
  ideas_accepted : Nat := 0
  ideas_rejected : Nat := 0
  context_confidence : ℚ
  updated_at : Nat := 0
  last_message_at : Option Nat := none
deriving DecidableEq, Repr

/-- Modelled from the spec: `ChatSession.increment_message_count` lives in
the external `agent_sdk` package, which is not part of this repository's
sources.  The spec's turn step (h) "bump message counters by 2 (one user
+ one assistant)" with the two call sites in `send_message` means one
call adds `1`. -/
def ChatSession.increment_message_count (s : ChatSession) : ChatSession :=
  { s with message_count := s.message_count + 1 }

/-- Modelled from the spec: `ChatSession.add_topic` lives in the external
`agent_sdk` package.  Per the spec, "newly seen topics are added to the
session's topic set preserving first-seen order; duplicates are not
re-added". -/
def ChatSession.add_topic (s : ChatSession) (t : String) : ChatSession :=
  if t ∈ s.topics then s else { s with topics := s.topics ++ [t] }

/-- Modelled from the spec: `ChatSession.record_idea` lives in the
external `agent_sdk` package.  Per the spec, "on accept/reject,
increments session's accept/reject and generated counters". -/
def ChatSession.record_idea (s : ChatSession) (accepted : Bool) : ChatSession :=
  { s with
    ideas_generated := s.ideas_generated + 1
    ideas_accepted := s.ideas_accepted + (if accepted then 1 else 0)
    ideas_rejected := s.ideas_rejected + (if accepted then 0 else 1) }

/-- Modelled from the spec: `ChatSession.touch` lives in the external
`agent_sdk` package.  Per the spec's turn step (h), it refreshes the
last-update and last-message timestamps. -/
def ChatSession.touch (s : ChatSession) (now : Nat) : ChatSession :=
  { s with updated_at := now, last_message_at := some now }

/-- `ChatRequest` from `agent_sdk.models.chat` as read by
`ChatService.send_message`. -/
structure ChatRequest where
  session_id : Option Nat := none
  message : String
  topics : List String := []
  context_window : Nat := 10
  include_ideas : Bool := true
deriving DecidableEq, Repr

/-- `ChatResponse` as populated by `ChatService.send_message` (message
id and wall-clock latency are dropped: identifiers of messages are not
modelled and latency is real time). -/
structure ChatResponse where
  session_id : Nat
  content : String
  ideas : List Nat
  topics_discussed : List String
  context_confidence : ℚ
  mnemosyne_available : Bool
deriving DecidableEq, Repr

/-- `FeedbackRequest` from `agent_sdk.models.chat`. -/
structure FeedbackRequest where
  session_id : Nat
  idea_id : Nat := 0
  feedback_type : FeedbackType
deriving DecidableEq, Repr

/-- `FeedbackResponse` as populated by `ChatService.submit_feedback`. -/
structure FeedbackResponse where
  success : Bool
  message : String
  updated_context_confidence : Option ℚ := none
deriving DecidableEq, Repr

/-- The in-memory state of `ChatService`: the `sessions` and `messages`
dictionaries (insertion-ordered association lists, as Python dicts), and
the `mnemosyne_client` field (its truthiness; `None`, i.e. `false`, in
this repository since nothing ever assigns it). -/
structure ChatService where
  sessions : List (Nat × ChatSession)
  messages : List (Nat × List ChatMessage)
  mnemosyne_client : Bool := false
deriving DecidableEq, Repr

/-- Python `dict.get` on an association list. -/
def alookup {α : Type} (k : Nat) : List (Nat × α) → Option α
  | [] => none
  | (k', v) :: rest => if k' = k then some v else alookup k rest

/-- Python `d[k] = v`: replace in place, or append a new binding. -/
def aset {α : Type} (k : Nat) (v : α) : List (Nat × α) → List (Nat × α)
  | [] => [(k, v)]
  | (k', v') :: rest => if k' = k then (k, v) :: rest else (k', v') :: aset k v rest

/-- The fixed keyword vocabulary of `ChatService._extract_topics`. -/
def topicVocabulary : List String :=
  ["AI", "technology", "business", "liquidity", "tokenized", "stablecoin",
   "deposits", "treasury", "commerce"]

/-- `ChatService._extract_topics`: start from the explicit topics, then
append each vocabulary keyword found (case-insensitively) in the message
that is not already in the accumulated list. -/
def extract_topics (message : String) (explicit_topics : List String) : List String :=
  let message_lower := lowerString message
  topicVocabulary.foldl
    (fun topics keyword =>
      if strContains message_lower (lowerString keyword) = true ∧ keyword ∉ topics
      then topics ++ [keyword] else topics)
    explicit_topics

/-- `ChatService._generate_response`.  The prompt string that the code
assembles from recent history is dead for the returned value (the Claude
call is a TODO), so only the returned placeholder text is modelled; it
depends on the message and the session's accumulated topics exactly as
in the code. -/
def generate_response (session : ChatSession) (message : String) : String :=
  let response := "I understand you're interested in "
    ++ String.mk (message.toList.take 50)
    ++ "... Let me help you explore this further. "
  if session.topics.isEmpty then
    response ++ "What specific aspects would you like to explore?"
  else
    response ++ "Based on our conversation about "
      ++ String.intercalate ", " (session.topics.take 2)
      ++ ", I can suggest some related ideas."

/-- `ChatService._search_ideas`: the MVP returns no ideas. -/
def search_ideas : List Nat := []

/-- `ChatService.send_message`.  `c0` is the initial context confidence
of a freshly constructed `agent_sdk` session (its default is outside
this repository, so it is a parameter); `freshId` is the UUID drawn when
a session is created; `now` the wall-clock instant of the turn.  The
returned pair carries the post-call store state together with either the
response or the raised error, so the error paths show exactly which
mutations have happened. -/
def send_message (c0 : ℚ) (svc : ChatService) (req : ChatRequest)
    (freshId : Nat) (now : Nat) : ChatService × Except String ChatResponse :=
  let resolved : Except String (ChatService × ChatSession) :=
    match req.session_id with
    | some sid =>
      match alookup sid svc.sessions with
      | none => Except.error ("Session " ++ Nat.repr sid ++ " not found")
      | some s => Except.ok (svc, s)
    | none =>
      let s : ChatSession := { id := freshId, context_confidence := c0 }
      Except.ok ({ svc with
                    sessions := aset freshId s svc.sessions
                    messages := aset freshId [] svc.messages }, s)
  match resolved with
  | Except.error e => (svc, Except.error e)
  | Except.ok (svc1, session) =>
    let user_message : ChatMessage :=
      { session_id := session.id, role := MessageRole.user,
        content := req.message, context_confidence := session.context_confidence }
    match alookup session.id svc1.messages with
    | none => (svc1, Except.error "KeyError")
    | some msgs =>
      let msgs1 := msgs ++ [user_message]
      let session1 := session.increment_message_count
      let topics := extract_topics req.message req.topics
      let session2 := topics.foldl ChatSession.add_topic session1
      let availability : Bool × ℚ :=
        if svc.mnemosyne_client then (true, 9/10) else (false, 8/10)
      let content := generate_response session2 req.message
      let ideas := if req.include_ideas then search_ideas else []
      let assistant_message : ChatMessage :=
        { session_id := session.id, role := MessageRole.assistant,
          content := content, idea_refs := ideas,
          context_confidence := availability.2 }
      let msgs2 := msgs1 ++ [assistant_message]
      let session3 := session2.increment_message_count
      let session4 :=
        ChatSession.touch { session3 with context_confidence := availability.2 } now
      ({ svc1 with
          sessions := aset session.id session4 svc1.sessions
          messages := aset session.id msgs2 svc1.messages },
       Except.ok
        { session_id := session.id, content := content, ideas := ideas,
          topics_discussed := topics, context_confidence := availability.2,
          mnemosyne_available := availability.1 })

/-- `ChatService.submit_feedback`. -/
def submit_feedback (svc : ChatService) (fb : FeedbackRequest) :
    ChatService × FeedbackResponse :=
  match alookup fb.session_id svc.sessions with
  | none =>
    (svc, { success := false,
            message := "Session " ++ Nat.repr fb.session_id ++ " not found" })
  | some session =>
    let session' :=
      match fb.feedback_type with
      | FeedbackType.accept => session.record_idea true
      | FeedbackType.reject => session.record_idea false
      | FeedbackType.flag => session
    ({ svc with sessions := aset fb.session_id session' svc.sessions },
     { success := true, message := "Feedback recorded successfully",
       updated_context_confidence := some session'.context_confidence })

lemma alookup_aset_self {α : Type} (k : Nat) (v : α) (m : List (Nat × α)) :
    alookup k (aset k v m) = some v := by
  induction m with
  | nil => simp [alookup, aset]
  | cons p rest ih =>
    obtain ⟨k', v'⟩ := p
    by_cases h : k' = k
    · simp [alookup, aset, h]
    · simp [alookup, aset, h, ih]

lemma foldl_add_topic_shape (ts : List String) :
    ∀ s : ChatSession, ∃ tps, ts.foldl ChatSession.add_topic s = { s with topics := tps } := by
  induction ts with
  | nil => intro s; exact ⟨s.topics, rfl⟩
  | cons t rest ih =>
    intro s
    simp only [List.foldl_cons, ChatSession.add_topic]
    by_cases h : t ∈ s.topics
    · rw [if_pos h]
      obtain ⟨tps, htps⟩ := ih s
      exact ⟨tps, htps⟩
    · rw [if_neg h]
      obtain ⟨tps, htps⟩ := ih { s with topics := s.topics ++ [t] }
      exact ⟨tps, htps⟩

lemma foldl_add_topic_message_count (ts : List String) (s : ChatSession) :
    (ts.foldl ChatSession.add_topic s).message_count = s.message_count := by
  obtain ⟨tps, h⟩ := foldl_add_topic_shape ts s
  rw [h]

lemma foldl_add_topic_id (ts : List String) (s : ChatSession) :
    (ts.foldl ChatSession.add_topic s).id = s.id := by
  obtain ⟨tps, h⟩ := foldl_add_topic_shape ts s
  rw [h]

/-- One successful `send_message` turn on an existing session: the call
returns ok, appends exactly a user message (whose confidence snapshot is
the session's pre-call confidence) followed by an assistant message,
bumps the session's message counter by 2, and reports the topics
extracted from the request; when the context-retrieval collaborator is
absent, the resolved confidence is the hard-coded default `0.8`. -/
lemma send_message_existing_spec (c0 : ℚ) (svc : ChatService) (req : ChatRequest)
    (sid freshId now : Nat) (s : ChatSession) (msgs : List ChatMessage)
    (hreq : req.session_id = some sid)
    (hs : alookup sid svc.sessions = some s)
    (hid : s.id = sid)
    (hm : alookup sid svc.messages = some msgs) :
    ∃ svc' resp, send_message c0 svc req freshId now = (svc', Except.ok resp)
      ∧ resp.session_id = sid
      ∧ resp.topics_discussed = extract_topics req.message req.topics
      ∧ resp.mnemosyne_available = svc.mnemosyne_client
      ∧ (svc.mnemosyne_client = false → resp.context_confidence = 8/10)
      ∧ ∃ s', alookup sid svc'.sessions = some s'
          ∧ s'.id = sid
          ∧ s'.message_count = s.message_count + 2
          ∧ (svc.mnemosyne_client = false → s'.context_confidence = 8/10)
          ∧ ∃ u a, alookup sid svc'.messages = some (msgs ++ [u] ++ [a])
              ∧ u.role = MessageRole.user
              ∧ a.role = MessageRole.assistant
              ∧ u.context_confidence = s.context_confidence := by
  simp only [send_message, hreq, hs, hid, hm]
  refine ⟨_, _, rfl, rfl, rfl, ?_, ?_, ?_⟩
  · cases h : svc.mnemosyne_client <;> rfl
  · intro h
    rw [h]
    rfl
  · refine ⟨_, alookup_aset_self _ _ _, ?_, ?_, ?_, ?_⟩
    · simp only [ChatSession.touch, ChatSession.increment_message_count, foldl_add_topic_id]
      exact hid
    · simp only [ChatSession.touch, ChatSession.increment_message_count,
        foldl_add_topic_message_count]
    · intro h
      rw [h]
      rfl
    · exact ⟨_, _, alookup_aset_self _ _ _, rfl, rfl, rfl⟩

/-- A stored session whose confidence differs from the hard-coded
default `0.8` (any `[0,1]` value is an admissible session confidence). -/
def halfSession : ChatSession := { id := 0, context_confidence := 1/2 }

/-- A service state holding `halfSession` under key `0`, with the
context-retrieval collaborator absent (as in this repository, where
`mnemosyne_client` is always `None`). -/
def halfService : ChatService :=
  { sessions := [(0, halfSession)], messages := [(0, [])] }

/-- A request addressed to the stored session. -/
def hiRequest : ChatRequest := { session_id := some 0, message := "hi" }

/-- C3 counterexample: on a session whose confidence is `0.5`, a
`send_message` turn with the context-retrieval collaborator unavailable
returns and stores the constant `0.8`, not the session's pre-call
confidence `0.5` — the claimed equality with the prior confidence is
false at this input. -/
theorem confidence_replaced_cex :
    halfSession.context_confidence = 1/2
    ∧ halfService.mnemosyne_client = false
    ∧ alookup 0 halfService.sessions = some halfSession
    ∧ ((send_message 0 halfService hiRequest 1 1).2.toOption.map
        ChatResponse.context_confidence) = some (8/10)
    ∧ ((alookup 0 (send_message 0 halfService hiRequest 1 1).1.sessions).map
        ChatSession.context_confidence) = some (8/10)
    ∧ ¬ ((8:ℚ)/10 = 1/2) :=
  ⟨rfl, rfl, rfl, rfl, rfl, by norm_num⟩

/-- C3 (amended): when the context-retrieval collaborator is
unavailable, a `send_message` turn on an existing session completes and
both returns and stores the hard-coded default confidence `0.8`
regardless of the session's prior confidence (so the result coincides
with the prior confidence exactly when that was already `0.8`); the
prior confidence is preserved only as the snapshot recorded on the
appended user message. -/
theorem send_message_confidence_default_on_unavailable (c0 : ℚ) (svc : ChatService)
    (req : ChatRequest) (sid freshId now : Nat) (s : ChatSession) (msgs : List ChatMessage)
    (hmn : svc.mnemosyne_client = false)
    (hreq : req.session_id = some sid)
    (hs : alookup sid svc.sessions = some s)
    (hid : s.id = sid)
    (hm : alookup sid svc.messages = some msgs) :
    ∃ svc' resp, send_message c0 svc req freshId now = (svc', Except.ok resp)
      ∧ resp.mnemosyne_available = false
      ∧ resp.context_confidence = 8/10
      ∧ (∃ s', alookup sid svc'.sessions = some s' ∧ s'.context_confidence = 8/10)
      ∧ (∃ u a, alookup sid svc'.messages = some (msgs ++ [u] ++ [a])
          ∧ u.context_confidence = s.context_confidence) := by
  obtain ⟨svc', resp, heq, -, -, hav, hconf, s', hlk, -, -, hconf', u, a, hms, -, -, hu⟩ :=
    send_message_existing_spec c0 svc req sid freshId now s msgs hreq hs hid hm
  exact ⟨svc', resp, heq, by rw [hav, hmn], hconf hmn, ⟨s', hlk, hconf' hmn⟩,
    ⟨u, a, hms, hu⟩⟩

/-- C3 witness: the amended statement applied to the concrete state
`halfService`. -/
theorem send_message_confidence_default_on_unavailable_witness :
    halfService.mnemosyne_client = false
    ∧ hiRequest.session_id = some 0
    ∧ alookup 0 halfService.sessions = some halfSession
    ∧ halfSession.id = 0
    ∧ alookup 0 halfService.messages = some []
    ∧ ∃ svc' resp, send_message 0 halfService hiRequest 1 1 = (svc', Except.ok resp)
        ∧ resp.mnemosyne_available = false
        ∧ resp.context_confidence = 8/10
        ∧ (∃ s', alookup 0 svc'.sessions = some s' ∧ s'.context_confidence = 8/10)
        ∧ (∃ u a, alookup 0 svc'.messages = some ([] ++ [u] ++ [a])
            ∧ u.context_confidence = halfSession.context_confidence) :=
  ⟨rfl, rfl, rfl, rfl, rfl,
    send_message_confidence_default_on_unavailable 0 halfService hiRequest 0 1 1
      halfSession [] rfl rfl rfl rfl rfl⟩

/-- C10: a `send_message` call whose request carries a session
identifier that is not in the store raises the "not found" error before
any state mutation: the returned store state is exactly the pre-call
state (no session created, no message appended, no counter, topic,
confidence or timestamp changed anywhere). -/
theorem send_message_not_found_no_mutation (c0 : ℚ) (svc : ChatService)
    (req : ChatRequest) (freshId now sid : Nat)
    (hreq : req.session_id = some sid)
    (hnone : alookup sid svc.sessions = none) :
    send_message c0 svc req freshId now
      = (svc, Except.error ("Session " ++ Nat.repr sid ++ " not found")) := by
  simp only [send_message, hreq, hnone]

/-- A request addressed to an absent session identifier. -/
def missRequest : ChatRequest := { session_id := some 3, message := "x" }

/-- C10 witness: the not-found theorem applied to `halfService`, whose
store has no session `3`. -/
theorem send_message_not_found_no_mutation_witness :
    missRequest.session_id = some 3
    ∧ alookup 3 halfService.sessions = none
    ∧ send_message 0 halfService missRequest 1 1
        = (halfService, Except.error ("Session " ++ Nat.repr 3 ++ " not found")) :=
  ⟨rfl, rfl, send_message_not_found_no_mutation 0 halfService missRequest 1 1 3 rfl rfl⟩

/-- C4: on an existing session, `submit_feedback` with kind accept
increments `ideas_accepted` and `ideas_generated` by exactly 1 (reject:
`ideas_rejected` and `ideas_generated`), all other fields untouched;
kind flag leaves the session exactly as it was; and feedback against an
unknown session returns `success = false` with a message, leaving the
whole store unchanged (no exception is modelled: the code returns a
failure response). -/
theorem submit_feedback_counters :
    (∀ (svc : ChatService) (fb : FeedbackRequest) (s : ChatSession),
      alookup fb.session_id svc.sessions = some s →
      ((fb.feedback_type = FeedbackType.accept →
          (submit_feedback svc fb).2.success = true
          ∧ alookup fb.session_id (submit_feedback svc fb).1.sessions
              = some { s with ideas_generated := s.ideas_generated + 1,
                              ideas_accepted := s.ideas_accepted + 1 })
        ∧ (fb.feedback_type = FeedbackType.reject →
          (submit_feedback svc fb).2.success = true
          ∧ alookup fb.session_id (submit_feedback svc fb).1.sessions
              = some { s with ideas_generated := s.ideas_generated + 1,
                              ideas_rejected := s.ideas_rejected + 1 })
        ∧ (fb.feedback_type = FeedbackType.flag →
          (submit_feedback svc fb).2.success = true
          ∧ alookup fb.session_id (submit_feedback svc fb).1.sessions = some s)))
    ∧ (∀ (svc : ChatService) (fb : FeedbackRequest),
        alookup fb.session_id svc.sessions = none →
        (submit_feedback svc fb).1 = svc
        ∧ (submit_feedback svc fb).2.success = false
        ∧ (submit_feedback svc fb).2.message
            = "Session " ++ Nat.repr fb.session_id ++ " not found") := by
  constructor
  · intro svc fb s hlk
    refine ⟨?_, ?_, ?_⟩ <;> intro hk
    · refine ⟨by simp [submit_feedback, hlk, hk], ?_⟩
      simp only [submit_feedback, hlk, hk]
      rw [alookup_aset_self]
      rfl
    · refine ⟨by simp [submit_feedback, hlk, hk], ?_⟩
      simp only [submit_feedback, hlk, hk]
      rw [alookup_aset_self]
      rfl
    · refine ⟨by simp [submit_feedback, hlk, hk], ?_⟩
      simp only [submit_feedback, hlk, hk]
      rw [alookup_aset_self]
  · intro svc fb hnone
    refine ⟨?_, ?_, ?_⟩ <;> simp [submit_feedback, hnone]

/-- An accept-feedback request against the stored session `0`. -/
def acceptFeedback : FeedbackRequest :=
  { session_id := 0, feedback_type := FeedbackType.accept }

/-- A feedback request against the absent session `3`. -/
def missFeedback : FeedbackRequest :=
  { session_id := 3, feedback_type := FeedbackType.accept }

/-- C4 witness: the feedback theorem applied to `halfService`: accept
feedback on session `0` bumps both counters, and feedback on the absent
session `3` fails without touching the store. -/
theorem submit_feedback_counters_witness :
    alookup acceptFeedback.session_id halfService.sessions = some halfSession
    ∧ acceptFeedback.feedback_type = FeedbackType.accept
    ∧ ((submit_feedback halfService acceptFeedback).2.success = true
        ∧ alookup acceptFeedback.session_id
            (submit_feedback halfService acceptFeedback).1.sessions
          = some { halfSession with
                    ideas_generated := halfSession.ideas_generated + 1,
                    ideas_accepted := halfSession.ideas_accepted + 1 })
    ∧ alookup missFeedback.session_id halfService.sessions = none
    ∧ ((submit_feedback halfService missFeedback).1 = halfService
        ∧ (submit_feedback halfService missFeedback).2.success = false) :=
  ⟨rfl, rfl,
    (submit_feedback_counters.1 halfService acceptFeedback halfSession rfl).1 rfl,
    rfl,
    ⟨(submit_feedback_counters.2 halfService missFeedback rfl).1,
     (submit_feedback_counters.2 halfService missFeedback rfl).2.1⟩⟩

/-- The claim's description of the vocabulary keywords added during a
turn: those occurring case-insensitively in the message that are not
among the explicit topics, in vocabulary order. -/
def newVocabTopics (message : String) (explicit_topics : List String) : List String :=
  topicVocabulary.filter (fun kw =>
    decide (strContains (lowerString message) (lowerString kw) = true
      ∧ kw ∉ explicit_topics))

lemma extract_topics_foldl (m : String) (kws : List String) :
    ∀ acc : List String, kws.Nodup →
      kws.foldl
        (fun topics keyword =>
          if strContains (lowerString m) (lowerString keyword) = true ∧ keyword ∉ topics
          then topics ++ [keyword] else topics) acc
      = acc ++ kws.filter (fun kw =>
          decide (strContains (lowerString m) (lowerString kw) = true ∧ kw ∉ acc)) := by
  induction kws with
  | nil => intro acc _; simp
  | cons k rest ih =>
    intro acc hnd
    obtain ⟨hk, hrest⟩ := List.nodup_cons.mp hnd
    simp only [List.foldl_cons, List.filter_cons]
    by_cases hc : strContains (lowerString m) (lowerString k) = true ∧ k ∉ acc
    · rw [if_pos hc, ih (acc ++ [k]) hrest, decide_eq_true hc, if_pos rfl]
      have hcong :
          rest.filter (fun kw =>
            decide (strContains (lowerString m) (lowerString kw) = true ∧ kw ∉ acc ++ [k]))
          = rest.filter (fun kw =>
            decide (strContains (lowerString m) (lowerString kw) = true ∧ kw ∉ acc)) := by
        apply List.filter_congr
        intro x hx
        have hxk : x ≠ k := fun h => hk (h ▸ hx)
        apply decide_eq_decide.mpr
        apply and_congr_right
        intro _
        simp [List.mem_append, hxk]
      rw [hcong, List.append_assoc, List.singleton_append]
    · rw [if_neg hc, ih acc hrest, decide_eq_false hc, if_neg (by simp)]

lemma extract_topics_eq (m : String) (explicit_topics : List String) :
    extract_topics m explicit_topics = explicit_topics ++ newVocabTopics m explicit_topics := by
  have hnd : topicVocabulary.Nodup := by decide
  simpa only [extract_topics, newVocabTopics] using
    extract_topics_foldl m topicVocabulary explicit_topics hnd

lemma extract_topics_nodup (m : String) (explicit_topics : List String)
    (h : explicit_topics.Nodup) : (extract_topics m explicit_topics).Nodup := by
  rw [extract_topics_eq]
  refine List.Nodup.append h (List.Nodup.filter _ (by decide)) ?_
  intro x hx1 hx2
  rw [newVocabTopics, List.mem_filter] at hx2
  exact (of_decide_eq_true hx2.2).2 hx1

/-- Every ok result of `send_message` reports as topics discussed
exactly `extract_topics` of the message and the explicit topics. -/
lemma send_message_ok_topics (c0 : ℚ) (svc svc' : ChatService) (req : ChatRequest)
    (freshId now : Nat) (resp : ChatResponse)
    (h : send_message c0 svc req freshId now = (svc', Except.ok resp)) :
    resp.topics_discussed = extract_topics req.message req.topics := by
  unfold send_message at h
  cases hsid : req.session_id with
  | none =>
    simp only [hsid] at h
    cases hm2 : alookup freshId (aset freshId ([] : List ChatMessage) svc.messages) with
    | none => rw [alookup_aset_self] at hm2; exact absurd hm2 (by simp)
    | some msgs =>
      simp only [hm2] at h
      obtain ⟨-, h2⟩ := Prod.mk.injEq .. ▸ h
      cases h2
      rfl
  | some sid =>
    simp only [hsid] at h
    cases hlk : alookup sid svc.sessions with
    | none => simp [hlk] at h
    | some s =>
      simp only [hlk] at h
      cases hm2 : alookup s.id svc.messages with
      | none => simp [hm2] at h
      | some msgs =>
        simp only [hm2] at h
        obtain ⟨-, h2⟩ := Prod.mk.injEq .. ▸ h
        cases h2
        rfl

/-- A request whose explicit topic list repeats a topic. -/
def dupRequest : ChatRequest :=
  { session_id := some 0, message := "hello", topics := ["AI", "AI"] }

/-- C9 counterexample: a `send_message` call whose request supplies the
explicit topics `["AI", "AI"]` (and whose message matches no vocabulary
keyword) reports topics discussed `["AI", "AI"]`, in which a topic
appears twice — the claim's "no topic appearing twice in the returned
list" fails because explicit topics are copied verbatim, the dedup check
only guards vocabulary keywords. -/
theorem topics_discussed_duplicate_cex :
    dupRequest.topics = ["AI", "AI"]
    ∧ ((send_message 0 halfService dupRequest 1 1).2.toOption.map
        ChatResponse.topics_discussed) = some ["AI", "AI"]
    ∧ ¬ (["AI", "AI"] : List String).Nodup :=
  ⟨rfl, by decide, by decide⟩

/-- C9 (amended): the topics discussed by any successful `send_message`
call are the explicitly supplied topics verbatim, in their given order,
followed by the vocabulary keywords occurring case-insensitively in the
message that are not among the explicit topics, in vocabulary order;
when the explicitly supplied topics are pairwise distinct (they are
copied as given, so duplicates among them survive) no topic appears
twice in the returned list. -/
theorem topics_discussed_union (c0 : ℚ) (svc svc' : ChatService) (req : ChatRequest)
    (freshId now : Nat) (resp : ChatResponse)
    (hok : send_message c0 svc req freshId now = (svc', Except.ok resp)) :
    resp.topics_discussed = req.topics ++ newVocabTopics req.message req.topics
    ∧ (req.topics.Nodup → resp.topics_discussed.Nodup) := by
  have ht := send_message_ok_topics c0 svc svc' req freshId now resp hok
  constructor
  · rw [ht, extract_topics_eq]
  · intro hnd
    rw [ht]
    exact extract_topics_nodup req.message req.topics hnd

/-- A request with a distinct explicit topic and a message matching
several vocabulary keywords. -/
def richRequest : ChatRequest :=
  { session_id := some 0,
    message := "Tell me about AI and tokenized deposits",
    topics := ["liquidity"] }

/-- C9 witness: the amended statement applied to a concrete turn — the
explicit topic comes first, then the matched keywords AI, tokenized and
deposits in vocabulary order, with no duplicates. -/
theorem topics_discussed_union_witness :
    (richRequest.topics.Nodup)
    ∧ ∃ svc' resp, send_message 0 halfService richRequest 1 1 = (svc', Except.ok resp)
        ∧ resp.topics_discussed
            = richRequest.topics ++ newVocabTopics richRequest.message richRequest.topics
        ∧ resp.topics_discussed = ["liquidity", "AI", "tokenized", "deposits"]
        ∧ resp.topics_discussed.Nodup := by
  have hnd : richRequest.topics.Nodup := by decide
  refine ⟨hnd, _, _, rfl, ?_⟩
  obtain ⟨h1, h2⟩ := topics_discussed_union 0 halfService _ richRequest 1 1 _ rfl
  exact ⟨h1, by decide, h2 hnd⟩

/-- The role sequence of `n` completed turns: `n` repetitions of
user-then-assistant. -/
def roleSeq : Nat → List MessageRole
  | 0 => []
  | n + 1 => roleSeq n ++ [MessageRole.user, MessageRole.assistant]

/-- Run a list of turns against one session: each turn is a request
(retargeted at `sid`) together with the fresh UUID and instant of that
call; stops with `none` if any call errors. -/
def runTurns (c0 : ℚ) (sid : Nat) :
    ChatService → List (ChatRequest × Nat × Nat) → Option ChatService
  | svc, [] => some svc
  | svc, (req, freshId, now) :: rest =>
    match send_message c0 svc { req with session_id := some sid } freshId now with
    | (svc', Except.ok _) => runTurns c0 sid svc' rest
    | (_, Except.error _) => none

lemma runTurns_invariant (c0 : ℚ) (sid : Nat) (turns : List (ChatRequest × Nat × Nat)) :
    ∀ (svc : ChatService) (s : ChatSession) (msgs : List ChatMessage) (k : Nat),
      alookup sid svc.sessions = some s → s.id = sid →
      s.message_count = 2 * k →
      alookup sid svc.messages = some msgs →
      msgs.length = 2 * k → msgs.map ChatMessage.role = roleSeq k →
      ∃ svc' s' msgs', runTurns c0 sid svc turns = some svc'
        ∧ alookup sid svc'.sessions = some s' ∧ s'.id = sid
        ∧ s'.message_count = 2 * (k + turns.length)
        ∧ alookup sid svc'.messages = some msgs'
        ∧ msgs'.length = 2 * (k + turns.length)
        ∧ msgs'.map ChatMessage.role = roleSeq (k + turns.length) := by
  induction turns with
  | nil =>
    intro svc s msgs k h1 h2 h3 h4 h5 h6
    exact ⟨svc, s, msgs, rfl, h1, h2, by simpa using h3, h4, by simpa using h5,
      by simpa using h6⟩
  | cons turn rest ih =>
    intro svc s msgs k h1 h2 h3 h4 h5 h6
    obtain ⟨req, freshId, now⟩ := turn
    obtain ⟨svc1, resp, heq, -, -, -, -, s1, hlk1, hid1, hcnt1, -, u, a, hlkm1, hu, ha, -⟩ :=
      send_message_existing_spec c0 svc { req with session_id := some sid } sid freshId now
        s msgs rfl h1 h2 h4
    have hrun : runTurns c0 sid svc ((req, freshId, now) :: rest)
        = runTurns c0 sid svc1 rest := by
      simp only [runTurns, heq]
    obtain ⟨svc', s', msgs', hrun', hl1, hl2, hl3, hl4, hl5, hl6⟩ :=
      ih svc1 s1 (msgs ++ [u] ++ [a]) (k + 1) hlk1 hid1 (by omega)
        hlkm1 (by simp [h5]; omega)
        (by simp only [List.map_append, h6]
            simp [roleSeq, List.append_assoc, hu, ha])
    have harith : k + 1 + rest.length = k + (rest.length + 1) := by omega
    refine ⟨svc', s', msgs', by rw [hrun]; exact hrun', hl1, hl2, ?_, hl4, ?_, ?_⟩
    · rw [List.length_cons]; omega
    · rw [List.length_cons]; omega
    · rw [List.length_cons, ← harith]; exact hl6

/-- C7: starting from a freshly created session (empty message list,
message counter 0), running any list of `N` successful `send_message`
turns against it leaves exactly `2 N` stored messages whose roles are
`N` repetitions of user-then-assistant in append order, and a
message_count of `2 N`. -/
theorem send_message_turns_message_count (c0 : ℚ) (sid : Nat)
    (turns : List (ChatRequest × Nat × Nat)) (svc : ChatService) (s0 : ChatSession)
    (hs : alookup sid svc.sessions = some s0) (hid : s0.id = sid)
    (hcnt : s0.message_count = 0)
    (hm : alookup sid svc.messages = some ([] : List ChatMessage)) :
    ∃ svc' s msgs, runTurns c0 sid svc turns = some svc'
      ∧ alookup sid svc'.sessions = some s
      ∧ alookup sid svc'.messages = some msgs
      ∧ msgs.length = 2 * turns.length
      ∧ msgs.map ChatMessage.role = roleSeq turns.length
      ∧ s.message_count = 2 * turns.length := by
  obtain ⟨svc', s', msgs', h1, h2, -, h4, h5, h6, h7⟩ :=
    runTurns_invariant c0 sid turns svc s0 [] 0 hs hid (by omega) hm rfl rfl
  exact ⟨svc', s', msgs', h1, h2, h5, by simpa using h6, by simpa using h7,
    by simpa using h4⟩

/-- C7 witness: two concrete turns against the stored session `0` of
`halfService` (which starts with no messages and counter 0). -/
theorem send_message_turns_message_count_witness :
    alookup 0 halfService.sessions = some halfSession
    ∧ halfSession.id = 0
    ∧ halfSession.message_count = 0
    ∧ alookup 0 halfService.messages = some []
    ∧ ∃ svc' s msgs,
        runTurns 0 0 halfService [(hiRequest, 1, 1), (richRequest, 2, 2)] = some svc'
        ∧ alookup 0 svc'.sessions = some s
        ∧ alookup 0 svc'.messages = some msgs
        ∧ msgs.length = 2 * 2
        ∧ msgs.map ChatMessage.role = roleSeq 2
        ∧ s.message_count = 2 * 2 := by
  refine ⟨rfl, rfl, rfl, rfl, ?_⟩
  have h := send_message_turns_message_count 0 0 [(hiRequest, 1, 1), (richRequest, 2, 2)]
    halfService halfSession rfl rfl rfl rfl
  simpa using h
